import Mathlib

/-!
Verification of `new_echizenya_hotel.py` (laundry-status dashboard).

Shallow embedding conventions:

* Python `float` values are modelled by `PyFloat`: an exact rational for
  finite values plus the three non-finite values `nan`, `inf`, `ninf`.
  Binary64 rounding is idealized away (every decimal literal is read
  exactly); none of the claims depends on rounding, only on which values
  parse and on order comparisons that are robust to it.
* Fallible Python code (exceptions) is modelled with `Option`: a function
  that would raise returns `none` at that input.
* `None` from Python (JSON `null`, or a missing key via `dict.get`) and the
  other raw JSON values a field can hold are modelled by `PyVal`.
-/

/-- A Python float: finite (exact rational), NaN, +inf or -inf. -/
inductive PyFloat where
  | finite (q : ℚ)
  | nan
  | inf
  | ninf
deriving DecidableEq, Repr

namespace PyFloat

/-- IEEE-style strict less-than: any comparison involving NaN is false. -/
def lt : PyFloat → PyFloat → Bool
  | finite a, finite b => a < b
  | finite _, inf => true
  | ninf, finite _ => true
  | ninf, inf => true
  | _, _ => false

/-- IEEE-style less-or-equal: any comparison involving NaN is false. -/
def le : PyFloat → PyFloat → Bool
  | nan, _ => false
  | _, nan => false
  | a, b => a = b || lt a b

end PyFloat

/-- A raw field value as it comes out of the decoded JSON record: Python
`None` (JSON null, or key missing from the record), a string, a number, a
boolean, or any other JSON value (array/object), which only matters in that
`float()` raises `TypeError` on it. -/
inductive PyVal where
  | none
  | str (s : String)
  | num (f : PyFloat)
  | bool (b : Bool)
  | other
deriving DecidableEq, Repr

/-! ### Model of Python `float(str)`

Grammar (CPython): optional surrounding whitespace, an optional sign, then
either a special token (`inf`, `infinity`, `nan`, case-insensitive) or a
decimal literal `digits [. digits] [(e|E) [sign] digits]` with at least one
digit in the mantissa (`5.`, `.5`, `5e3` all valid).  Underscore digit
separators (PEP 515) are not modelled.  The sign of NaN is dropped and the
two floating zeros collapse to the single rational 0, neither of which any
claim can observe. -/

/-- Numeric value of a list of decimal digit characters. -/
def digitsVal (cs : List Char) : Nat :=
  cs.foldl (fun acc c => acc * 10 + (c.toNat - 48)) 0

/-- All characters are decimal digits and there is at least one. -/
def allDigits1 (cs : List Char) : Bool :=
  cs ≠ [] && cs.all (·.isDigit)

/-- Parse the unsigned mantissa `digits [. digits]` (consuming everything),
returning its digits' numeric value together with the number of fractional
digits, so the rational is assembled later with a single `mkRat`. -/
def mantissaVal (cs : List Char) : Option (Nat × Nat) :=
  match cs.span (· ≠ '.') with
  | (intPart, []) =>
      if allDigits1 intPart then some (digitsVal intPart, 0) else Option.none
  | (intPart, _dot :: fracPart) =>
      if intPart.all (·.isDigit) && fracPart.all (·.isDigit)
          && (intPart ≠ [] || fracPart ≠ []) then
        some (digitsVal intPart * 10 ^ fracPart.length + digitsVal fracPart,
          fracPart.length)
      else Option.none

/-- Parse the exponent part after `e` (optional sign, then digits). -/
def expVal (cs : List Char) : Option Int :=
  match cs with
  | '+' :: ds => if allDigits1 ds then some (digitsVal ds) else Option.none
  | '-' :: ds => if allDigits1 ds then some (-(digitsVal ds : Int)) else Option.none
  | ds => if allDigits1 ds then some (digitsVal ds) else Option.none

/-- Exact value `sign * m / 10^fk * 10^e`, built with one `mkRat` (the
`Rat` arithmetic operators are irreducible; `mkRat` is not). -/
def decValue (neg : Bool) (m fk : Nat) (e : Int) : ℚ :=
  let sn : Int := if neg then -(m : Int) else (m : Int)
  if 0 ≤ e then mkRat (sn * ((10 ^ e.toNat : Nat) : Int)) (10 ^ fk)
  else mkRat sn (10 ^ fk * 10 ^ (-e).toNat)

/-- Unsigned numeric literal `digits [. digits] [e [sign] digits]`,
as (mantissa digits value, fractional digit count, exponent). -/
def unsignedFloatVal (cs : List Char) : Option (Nat × Nat × Int) :=
  match cs.span (· ≠ 'e') with
  | (mant, []) => (mantissaVal mant).map fun (m, fk) => (m, fk, 0)
  | (mant, _e :: expPart) =>
      match mantissaVal mant, expVal expPart with
      | some (m, fk), some e => some (m, fk, e)
      | _, _ => Option.none

/-- Model of Python `float(s)` for a string argument: `none` models the
`ValueError` raised on an unparseable string. -/
def floatOfString (s : String) : Option PyFloat :=
  let cs := (s.data.map Char.toLower).dropWhile (·.isWhitespace)
  let cs := (cs.reverse.dropWhile (·.isWhitespace)).reverse
  let (neg, body) :=
    match cs with
    | '+' :: rest => (false, rest)
    | '-' :: rest => (true, rest)
    | rest => (false, rest)
  if body = ['i', 'n', 'f'] || body = ['i', 'n', 'f', 'i', 'n', 'i', 't', 'y'] then
    some (if neg then .ninf else .inf)
  else if body = ['n', 'a', 'n'] then
    some .nan
  else
    match unsignedFloatVal body with
    | some (m, fk, e) => some (.finite (decValue neg m fk e))
    | Option.none => Option.none

/-- Model of `_to_num` (source lines 346-361): convert an Ambient field value to a
float, returning `None` when the value is `None`/empty or conversion fails.
`float()` raises `TypeError` on lists/dicts (caught, hence `none`) but
accepts booleans as 1.0/0.0. -/
def _to_num : PyVal → Option PyFloat
  | .none => Option.none
  | .str s => if s = "" then Option.none else floatOfString s
  | .num f => some f
  | .bool b => some (.finite (if b then 1 else 0))
  | .other => Option.none

example : _to_num (.str "4.2") = some (.finite (mkRat 21 5)) := by decide
example : _to_num (.str "NaN") = some .nan := by decide
example : _to_num (.str "inf") = some .inf := by decide
example : _to_num (.str "abc") = Option.none := by decide
example : _to_num (.str "") = Option.none := by decide
example : _to_num .none = Option.none := by decide
example : _to_num (.str "0.10") = some (.finite (mkRat 1 10)) := by decide
example : _to_num (.str " -1e2 ") = some (.finite (mkRat (-100) 1)) := by decide

/-! ### Model of `datetime`

A `datetime.datetime` value: calendar fields, microseconds, and an optional
fixed UTC offset in seconds (`none` = naive).  Conversions between calendar
dates and day counts use the standard civil-calendar algorithms. -/

/-- A Python `datetime.datetime`: calendar fields, microseconds and an
optional fixed timezone offset in seconds (`none` models a naive value). -/
structure PyDateTime where
  year : Int
  month : Nat
  day : Nat
  hour : Nat
  minute : Nat
  second : Nat
  us : Nat
  tz : Option Int
deriving DecidableEq, Repr

/-- Gregorian leap year. -/
def isLeap (y : Int) : Bool :=
  y % 4 = 0 && (y % 100 ≠ 0 || y % 400 = 0)

/-- Number of days in a month (1-12). -/
def daysInMonth (y : Int) (m : Nat) : Nat :=
  if m = 2 then (if isLeap y then 29 else 28)
  else if m = 4 || m = 6 || m = 9 || m = 11 then 30
  else 31

/-- Days from 1970-01-01 to the given civil date (Gregorian, proleptic). -/
def daysFromCivil (y : Int) (m d : Nat) : Int :=
  let y := if m ≤ 2 then y - 1 else y
  let era := Int.fdiv y 400
  let yoe := (y - era * 400).toNat
  let mp := (m + 9) % 12
  let doy := (153 * mp + 2) / 5 + d - 1
  let doe := yoe * 365 + yoe / 4 - yoe / 100 + doy
  era * 146097 + (doe : Int) - 719468

/-- Civil date of the day that is `z` days after 1970-01-01. -/
def civilFromDays (z : Int) : Int × Nat × Nat :=
  let z := z + 719468
  let era := Int.fdiv z 146097
  let doe := (z - era * 146097).toNat
  let yoe := (doe - doe / 1460 + doe / 36524 - doe / 146096) / 365
  let y := era * 400 + (yoe : Int)
  let doy := doe - (365 * yoe + yoe / 4 - yoe / 100)
  let mp := (5 * doy + 2) / 153
  let d := doy - (153 * mp + 2) / 5 + 1
  let m := if mp < 10 then mp + 3 else mp - 9
  (if m ≤ 2 then y + 1 else y, m, d)

/-- Seconds past midnight on the day containing epoch second `u`. -/
def secondsOfDay (u : Int) : Nat :=
  (u - Int.fdiv u 86400 * 86400).toNat

/-- The UTC datetime `u` seconds (plus `us` microseconds) after the epoch;
`none` when outside `datetime`'s year range 1..9999 (Python raises there). -/
def utcOfSeconds (u : Int) (us : Nat) : Option PyDateTime :=
  match civilFromDays (Int.fdiv u 86400) with
  | (y, m, d) =>
    if 1 ≤ y && y ≤ 9999 then
      some ⟨y, m, d, secondsOfDay u / 3600, secondsOfDay u % 3600 / 60,
        secondsOfDay u % 60, us, some 0⟩
    else Option.none

/-- Model of `dt.astimezone(timezone.utc)` for an aware datetime: shift the
wall-clock fields by the offset and stamp UTC.  On a naive datetime Python
would interpret the value in the system local zone; `_parse_iso8601` never
does that (the naive case is made aware first), so that case is `none`. -/
def astimezoneUtc (dt : PyDateTime) : Option PyDateTime :=
  match dt.tz with
  | Option.none => Option.none
  | some off =>
    utcOfSeconds
      (daysFromCivil dt.year dt.month dt.day * 86400
        + (dt.hour * 3600 + dt.minute * 60 + dt.second : Nat) - off)
      dt.us

/-! ### Model of `datetime.fromisoformat`

Grammar modelled (the CPython 3.11+ form, restricted to what this program
can meet): `YYYY-MM-DD`, optionally followed by a single separator
character and a time `HH[:MM[:SS[.f{1..6}]]]`, optionally followed by an
offset `+HH:MM[:SS]` / `-HH:MM[:SS]`.  Field ranges are validated as
CPython does (month 1-12, day within month, hour<24, minute/second<60,
offset strictly inside 24 h).  Basic (separator-free) dates, fractional
offsets and comma decimal separators are not modelled; the program's
inputs never contain them. -/

/-- Exactly two decimal digits. -/
def twoDigits : List Char → Option (Nat × List Char)
  | a :: b :: rest =>
      if a.isDigit && b.isDigit then
        some ((a.toNat - 48) * 10 + (b.toNat - 48), rest)
      else Option.none
  | _ => Option.none

/-- Exactly four decimal digits. -/
def fourDigits : List Char → Option (Nat × List Char)
  | a :: b :: c :: d :: rest =>
      if a.isDigit && b.isDigit && c.isDigit && d.isDigit then
        some (digitsVal [a, b, c, d], rest)
      else Option.none
  | _ => Option.none

/-- Fractional-second digits (1 to 6), as microseconds. -/
def fracVal (cs : List Char) : Option Nat :=
  if allDigits1 cs && cs.length ≤ 6 then
    some (digitsVal cs * 10 ^ (6 - cs.length))
  else Option.none

/-- Time of day `HH[:MM[:SS[.frac]]]`, consuming the whole input. -/
def timeVal (cs : List Char) : Option (Nat × Nat × Nat × Nat) := do
  let (h, rest) ← twoDigits cs
  if h ≥ 24 then failure
  match rest with
  | [] => pure (h, 0, 0, 0)
  | ':' :: rest => do
    let (mi, rest) ← twoDigits rest
    if mi ≥ 60 then failure
    match rest with
    | [] => pure (h, mi, 0, 0)
    | ':' :: rest => do
      let (se, rest) ← twoDigits rest
      if se ≥ 60 then failure
      match rest with
      | [] => pure (h, mi, se, 0)
      | '.' :: frac => do
        let us ← fracVal frac
        pure (h, mi, se, us)
      | _ => failure
    | _ => failure
  | _ => failure

/-- UTC offset `±HH:MM[:SS]` in seconds, consuming the whole input. -/
def offsetVal (cs : List Char) : Option Int := do
  let (neg, rest) ←
    match cs with
    | '+' :: rest => some (false, rest)
    | '-' :: rest => some (true, rest)
    | _ => Option.none
  let (h, rest) ← twoDigits rest
  let rest ← match rest with
    | ':' :: rest => some rest
    | _ => Option.none
  let (mi, rest) ← twoDigits rest
  if mi ≥ 60 then failure
  let se ← match rest with
    | [] => some 0
    | ':' :: rest => do
        let (se, rest) ← twoDigits rest
        if se ≥ 60 then failure
        if rest = [] then pure se else failure
    | _ => Option.none
  let total : Nat := h * 3600 + mi * 60 + se
  if total ≥ 86400 then failure
  pure (if neg then -(total : Int) else (total : Int))

/-- Model of `datetime.fromisoformat`: `none` models `ValueError`. -/
def fromisoformat (s : String) : Option PyDateTime := do
  let cs := s.data
  let (y, rest) ← fourDigits cs
  if y = 0 then failure
  let rest ← match rest with
    | '-' :: rest => some rest
    | _ => Option.none
  let (mo, rest) ← twoDigits rest
  if mo = 0 || mo > 12 then failure
  let rest ← match rest with
    | '-' :: rest => some rest
    | _ => Option.none
  let (dy, rest) ← twoDigits rest
  if dy = 0 || dy > daysInMonth y mo then failure
  match rest with
  | [] => pure ⟨y, mo, dy, 0, 0, 0, 0, Option.none⟩
  | _sep :: [] => failure
  | _sep :: timecs =>
    let (tpart, opart) := timecs.span (fun c => c ≠ '+' && c ≠ '-')
    do
      let (h, mi, se, us) ← timeVal tpart
      let tz ← match opart with
        | [] => some Option.none
        | _ => (offsetVal opart).map some
      pure ⟨y, mo, dy, h, mi, se, us, tz⟩

/-- Model of `s.replace("Z", "+00:00")`: every occurrence of the
one-character pattern `Z` is replaced. -/
def replaceZ (s : String) : String :=
  String.mk (s.data.foldr
    (fun c acc =>
      if c = 'Z' then '+' :: '0' :: '0' :: ':' :: '0' :: '0' :: acc
      else c :: acc) [])

/-- Model of Python `s.endswith("Z")`. -/
def endsWithZ (s : String) : Bool :=
  s.data.getLast? = some 'Z'

/-- Model of `_parse_iso8601` (source lines 364-393): parse Ambient's `created`
string into a UTC datetime.  `if not s` rejects `None`, the empty string
and other falsy values; a truthy non-string raises `AttributeError` at
`s.endswith`, which the bare `except` turns into `None` — so every
non-string argument yields `none`. -/
def _parse_iso8601 : PyVal → Option PyDateTime
  | .str s =>
    if s = "" then Option.none
    else if endsWithZ s then
      (fromisoformat (replaceZ s)).bind astimezoneUtc
    else
      match fromisoformat s with
      | Option.none => Option.none
      | some dt =>
        let dt :=
          match dt.tz with
          | Option.none => { dt with tz := some 0 }
          | some _ => dt
        astimezoneUtc dt
  | _ => Option.none

/-- Zero-padded decimal rendering. -/
def pad (w n : Nat) : String :=
  let s := toString n
  String.mk (List.replicate (w - s.length) '0') ++ s

/-- Model of `datetime.isoformat()`: microseconds printed only when
nonzero, the offset as `±HH:MM` (with `:SS` only when nonzero). -/
def isoformat (dt : PyDateTime) : String :=
  let date := pad 4 dt.year.toNat ++ "-" ++ pad 2 dt.month ++ "-" ++ pad 2 dt.day
  let time := pad 2 dt.hour ++ ":" ++ pad 2 dt.minute ++ ":" ++ pad 2 dt.second
  let frac := if dt.us = 0 then "" else "." ++ pad 6 dt.us
  let off :=
    match dt.tz with
    | Option.none => ""
    | some o =>
      let a := o.natAbs
      (if o < 0 then "-" else "+") ++ pad 2 (a / 3600) ++ ":" ++ pad 2 (a % 3600 / 60)
        ++ (if a % 60 = 0 then "" else ":" ++ pad 2 (a % 60))
  date ++ "T" ++ time ++ frac ++ off

example : _parse_iso8601 (.str "2025-01-01T00:00:00Z")
    = some ⟨2025, 1, 1, 0, 0, 0, 0, some 0⟩ := by decide
example : _parse_iso8601 (.str "2025-01-01T09:00:00+09:00")
    = some ⟨2025, 1, 1, 0, 0, 0, 0, some 0⟩ := by decide
example : _parse_iso8601 (.str "2025-01-01T00:00:00")
    = some ⟨2025, 1, 1, 0, 0, 0, 0, some 0⟩ := by decide
example : _parse_iso8601 (.str "") = Option.none := by decide
example : _parse_iso8601 .none = Option.none := by decide
example : _parse_iso8601 (.str "garbage") = Option.none := by decide
example : _parse_iso8601 (.str "2025-06-01T12:00:00Z")
    = some ⟨2025, 6, 1, 12, 0, 0, 0, some 0⟩ := by decide
example : isoformat ⟨2025, 6, 1, 12, 0, 0, 0, some 0⟩
    = "2025-06-01T12:00:00+00:00" := by decide
example : _parse_iso8601 (.str "2024-02-29T23:30:00-01:45")
    = some ⟨2024, 3, 1, 1, 15, 0, 0, some 0⟩ := by decide
example : _parse_iso8601 (.str "2023-02-29T00:00:00") = Option.none := by decide

/-! ### The `/api/data` endpoint -/

/-- A scalar JSON value (numbers carried as `PyFloat`, since Python's
`json` serializes non-finite floats too). -/
inductive JsonAtom where
  | null
  | str (s : String)
  | num (f : PyFloat)
deriving DecidableEq, Repr

/-- A member value of the response object: a scalar, or a one-level object
of scalars.  Every body `api_data` builds fits this shape, so the general
recursive JSON grammar is not needed. -/
inductive JsonVal where
  | atom (a : JsonAtom)
  | obj (fields : List (String × JsonAtom))
deriving DecidableEq, Repr

/-- A JSON object body as returned by `jsonify`. -/
abbrev Body : Type := List (String × JsonVal)

/-- Top-level keys of a response body (in order). -/
def jsonKeys (b : Body) : List String :=
  b.map Prod.fst

/-- One record of the Ambient response array.  Each field holds the result
of `row.get(k)`: JSON `null` and a missing key both give Python `None`,
collapsed into `PyVal.none`. -/
structure Record where
  created : PyVal
  d1 : PyVal
  d2 : PyVal
  d3 : PyVal
  d4 : PyVal
deriving DecidableEq, Repr

/-- An optional reading as embedded in the response JSON. -/
def jsonOfReading : Option PyFloat → JsonAtom
  | Option.none => .null
  | some f => .num f

/-- Model of `api_data` (source lines 285-341), as a function of the outcome of the
upstream fetch and of the server clock.

* `fetched = .error e` models `requests.get`/`raise_for_status`/`r.json()`
  raising a `RequestException` whose `str()` is `e` (network error,
  timeout, 4xx/5xx status, or undecodable body).
* `fetched = .ok rows` models a decoded JSON array.
* `now` is the value of `datetime.now(timezone.utc).isoformat()`, supplied
  by the environment at response-construction time.

The result is the HTTP status code and the JSON body.  `jsonify` of a dict
keeps these keys in the written order (which is also alphabetical, so
Flask's key sorting cannot reorder them). -/
def api_data (fetched : Except String (List Record)) (now : String) :
    Nat × Body :=
  match fetched with
  | .error e =>
      -- `except requests.RequestException as e: return jsonify({"error": str(e)}), 502`
      (502, [("error", .atom (.str e))])
  | .ok [] =>
      (200, [("created", .atom .null), ("server_now", .atom (.str now)),
        ("values", .obj [("d1", .null), ("d2", .null), ("d3", .null), ("d4", .null)])])
  | .ok (row :: _) =>
      match _parse_iso8601 row.created with
      | Option.none =>
          -- `raise ValueError("Invalid created timestamp")`, caught by
          -- `except ValueError as e: jsonify({"error": f"Invalid response from Ambient: {e}"}), 502`
          (502, [("error", .atom (.str "Invalid response from Ambient: Invalid created timestamp"))])
      | some created_dt =>
          (200, [("created", .atom (.str (isoformat created_dt))),
            ("server_now", .atom (.str now)),
            ("values", .obj [("d1", jsonOfReading (_to_num row.d1)),
              ("d2", jsonOfReading (_to_num row.d2)),
              ("d3", jsonOfReading (_to_num row.d3)),
              ("d4", jsonOfReading (_to_num row.d4))])])

/-! ### Configuration (source lines 29-49)

The environment is a partial map from variable names to values. -/

/-- Process environment. -/
abbrev Env : Type := String → Option String

/-- Model of `os.getenv(key, default)`. -/
def getenv (env : Env) (key dflt : String) : String :=
  (env key).getD dflt

/-- Model of Python `int(s)`: optional surrounding whitespace, optional
sign, one or more digits (underscore separators not modelled); `none`
models `ValueError`, which here would abort startup. -/
def intOfString (s : String) : Option Int :=
  let cs := s.data.dropWhile (·.isWhitespace)
  let cs := (cs.reverse.dropWhile (·.isWhitespace)).reverse
  let (neg, body) :=
    match cs with
    | '+' :: rest => (false, rest)
    | '-' :: rest => (true, rest)
    | rest => (false, rest)
  if allDigits1 body then
    some (if neg then -(digitsVal body : Int) else (digitsVal body : Int))
  else Option.none

def DEFAULT_CHANNEL_ID : Nat := 95641

/-- Source line 32: `CHANNEL_ID = int(os.getenv("AMBIENT_CHANNEL_ID", str(DEFAULT_CHANNEL_ID)))`. -/
def CHANNEL_ID (env : Env) : Option Int :=
  intOfString (getenv env "AMBIENT_CHANNEL_ID" (toString DEFAULT_CHANNEL_ID))

/-- Source line 36: `READ_KEY = os.getenv("AMBIENT_READ_KEY", "")`. -/
def READ_KEY (env : Env) : String :=
  getenv env "AMBIENT_READ_KEY" ""

/-- Source line 39: `AMBIENT_BASE_URL = os.getenv("AMBIENT_BASE_URL", "http://ambidata.io")`. -/
def AMBIENT_BASE_URL (env : Env) : String :=
  getenv env "AMBIENT_BASE_URL" "http://ambidata.io"

/-- Source line 43: `AMBIENT_URL = f"http://ambidata.io/api/v2/channels/{CHANNEL_ID}/data"`
— the base is the literal `http://ambidata.io`, not
`AMBIENT_BASE_URL`. -/
def AMBIENT_URL (env : Env) : Option String :=
  (CHANNEL_ID env).map fun cid =>
    "http://ambidata.io/api/v2/channels/" ++ toString cid ++ "/data"

/-- The full upstream request target: `requests.get(AMBIENT_URL, params=
{"readKey": READ_KEY, "n": 1})` appends the query string (URL-encoding of
the key's characters left aside). -/
def requestURL (env : Env) : Option String :=
  (AMBIENT_URL env).map fun u =>
    u ++ "?readKey=" ++ READ_KEY env ++ "&n=1"

/-! ### Client-side logic (the template's script, source lines 164-271) -/

/-- Source line 49: `THRESHOLD = 0.05`, rendered verbatim into the page
script; one shared constant on both sides.  The decimal literal is read
exactly (binary64 rounding idealized away). -/
def THRESHOLD : PyFloat := .finite (mkRat 5 100)

/-- Model of JS `Number(v)` for the payload values the client can receive
(`null`, numbers, strings).  `Number(null) = 0`, `Number("") = 0`, a
string is trimmed and read as a decimal literal or `±Infinity`
(case-sensitive), anything else is NaN.  Hex/octal/binary literal strings
are not modelled; the endpoint never emits strings. -/
def jsNumber : JsonAtom → PyFloat
  | .null => .finite 0
  | .num f => f
  | .str s =>
    let cs := s.data.dropWhile (·.isWhitespace)
    let cs := (cs.reverse.dropWhile (·.isWhitespace)).reverse
    let (neg, body) :=
      match cs with
      | '+' :: rest => (false, rest)
      | '-' :: rest => (true, rest)
      | rest => (false, rest)
    if body = [] then .finite 0
    else if body = "Infinity".data then (if neg then .ninf else .inf)
    else
      match unsignedFloatVal body with
      | some (m, fk, e) => .finite (decValue neg m fk e)
      | Option.none => .nan

/-- The client's value coercion (source line 241):
`(v===null || v==="" || Number.isNaN(Number(v))) ? null : Number(v)`. -/
def jsCoerce (v : JsonAtom) : Option PyFloat :=
  if v = .null then Option.none
  else if v = .str "" then Option.none
  else if jsNumber v = .nan then Option.none
  else some (jsNumber v)

/-- The state `setAvailableView` leaves a card in: the text of its `.val`
span, which CSS variable the background is set to, and whether the spinner
is visible (`washer.hidden` negated). -/
structure CardView where
  text : String
  background : String
  spinnerShown : Bool
deriving DecidableEq, Repr

/-- Model of `setAvailableView` (source lines 203-224) as a function of the
threshold and the coerced reading.  `使用可` = "available", `使用中` =
"in use", `—` = unknown.  The spinner condition is the source's
`!(num !== null && num >= THRESHOLD)` negated. -/
def setAvailableView (threshold : PyFloat) (num : Option PyFloat) : CardView :=
  let (text, background) :=
    match num with
    | Option.none => ("—", "--base")
    | some v =>
      if PyFloat.lt v threshold then ("使用可", "--ok")
      else ("使用中", "--warn")
  let spin :=
    match num with
    | Option.none => false
    | some v => PyFloat.le threshold v
  ⟨text, background, spin⟩

example : setAvailableView THRESHOLD (jsCoerce (.num (.finite (mkRat 1 10))))
    = ⟨"使用中", "--warn", true⟩ := by decide
example : setAvailableView THRESHOLD (jsCoerce .null)
    = ⟨"—", "--base", false⟩ := by decide
example : setAvailableView THRESHOLD (jsCoerce (.num (.finite (mkRat 1 100))))
    = ⟨"使用可", "--ok", false⟩ := by decide
example : setAvailableView THRESHOLD (some THRESHOLD)
    = ⟨"使用中", "--warn", true⟩ := by decide

/-! ### Helper lemmas -/

theorem floatOfString_empty : floatOfString "" = Option.none := by decide

theorem PyFloat.le_imp_not_lt (t v : PyFloat) (h : PyFloat.le t v = true) :
    PyFloat.lt v t = false := by
  cases t <;> cases v <;> simp_all [PyFloat.le, PyFloat.lt]
  rcases h with h | h
  · exact le_of_eq h
  · exact le_of_lt h

theorem PyFloat.lt_imp_not_le (t v : PyFloat) (h : PyFloat.lt v t = true) :
    PyFloat.le t v = false := by
  cases t <;> cases v <;> simp_all [PyFloat.le, PyFloat.lt]
  exact ⟨fun h' => absurd h (by rw [h']; exact lt_irrefl _), le_of_lt h⟩

theorem utcOfSeconds_tz (u : Int) (us : Nat) (d : PyDateTime)
    (h : utcOfSeconds u us = some d) : d.tz = some 0 := by
  unfold utcOfSeconds at h
  split at h
  split at h
  · injection h with h'
    exact h' ▸ rfl
  · cases h

theorem astimezoneUtc_tz (dt d : PyDateTime) (h : astimezoneUtc dt = some d) :
    d.tz = some 0 := by
  unfold astimezoneUtc at h
  rcases htz : dt.tz with _ | off <;> rw [htz] at h
  · cases h
  · exact utcOfSeconds_tz _ _ _ h

theorem jsonOfReading_shape (o : Option PyFloat) :
    jsonOfReading o = JsonAtom.null ∨ ∃ f, jsonOfReading o = JsonAtom.num f := by
  cases o <;> simp [jsonOfReading]

/-- Unfolding equation of `api_data` for a nonempty result list. -/
theorem api_data_cons (row : Record) (rest : List Record) (now : String) :
    api_data (.ok (row :: rest)) now
      = match _parse_iso8601 row.created with
        | Option.none =>
            (502, [("error", .atom (.str
              "Invalid response from Ambient: Invalid created timestamp"))])
        | some created_dt =>
            (200, [("created", .atom (.str (isoformat created_dt))),
              ("server_now", .atom (.str now)),
              ("values", .obj [("d1", jsonOfReading (_to_num row.d1)),
                ("d2", jsonOfReading (_to_num row.d2)),
                ("d3", jsonOfReading (_to_num row.d3)),
                ("d4", jsonOfReading (_to_num row.d4))])]) := rfl

/-! ### The claims -/

/-- Claim C1, counterexample: the claim says the string `"NaN"` must
normalize to an absent reading, but `_to_num` returns the NaN float for it
(Python `float("NaN")` succeeds and the code filters nothing). -/
theorem C1_counterexample :
    _to_num (.str "NaN") = some PyFloat.nan ∧
      some PyFloat.nan ≠ (Option.none : Option PyFloat) := by
  refine ⟨by decide, by decide⟩

/-- Claim C1, amended: `_to_num` yields `None` exactly for `None`, the
empty string, and strings `float()` cannot parse; any parseable string —
including the non-finite tokens `"NaN"` and `"inf"` — yields the parsed
float, so a success payload value can be a non-finite number.  Numbers
pass through unchanged. -/
theorem C1_numeric_coercion :
    _to_num .none = Option.none ∧
    _to_num (.str "") = Option.none ∧
    (∀ s, floatOfString s = Option.none → _to_num (.str s) = Option.none) ∧
    (∀ s f, floatOfString s = some f → _to_num (.str s) = some f) ∧
    (∀ f, _to_num (.num f) = some f) ∧
    _to_num (.str "NaN") = some PyFloat.nan ∧
    _to_num (.str "inf") = some PyFloat.inf ∧
    _to_num (.str "abc") = Option.none ∧
    _to_num (.str "4.2") = some (.finite (mkRat 21 5)) := by
  refine ⟨rfl, rfl, ?_, ?_, fun f => rfl, by decide, by decide, by decide, by decide⟩
  · intro s h
    simp only [_to_num]
    split
    · rfl
    · exact h
  · intro s f h
    by_cases hs : s = ""
    · rw [hs] at h
      rw [floatOfString_empty] at h
      cases h
    · simp only [_to_num]
      rw [if_neg hs]
      exact h

/-- Claim C1, witness for the amended theorem. -/
theorem C1_numeric_coercion_witness :
    _to_num (.str "abc") = Option.none ∧
    _to_num (.str "7.5") = some (.finite (mkRat 15 2)) :=
  ⟨C1_numeric_coercion.2.2.1 "abc" (by decide),
   C1_numeric_coercion.2.2.2.1 "7.5" (.finite (mkRat 15 2)) (by decide)⟩

/-- The environment the claim about `AMBIENT_BASE_URL` is tested at. -/
def envOverride : Env := fun k =>
  if k = "AMBIENT_BASE_URL" then some "https://example.com" else Option.none

/-- Claim C2: the spec says the outbound request's base URL equals the
configured `AMBIENT_BASE_URL` for every value of that variable, and the
code's own comment says the variable overrides the base URL — but line 43
hardcodes `http://ambidata.io`, so with `AMBIENT_BASE_URL` set to
`https://example.com` the request still targets `http://ambidata.io`. -/
theorem C2_base_url_ignored :
    AMBIENT_BASE_URL envOverride = "https://example.com" ∧
    AMBIENT_URL envOverride = some "http://ambidata.io/api/v2/channels/95641/data" ∧
    requestURL envOverride
      = some "http://ambidata.io/api/v2/channels/95641/data?readKey=&n=1" ∧
    ("https://example.com".data).isPrefixOf
      ("http://ambidata.io/api/v2/channels/95641/data").data = false := by
  refine ⟨rfl, by decide, by decide, by decide⟩

/-- Claim C3: classification is a pure function of (reading, threshold):
a reading strictly below the threshold renders "available" (`使用可`, ok
background, spinner hidden); a reading at or above it — including exactly
at it — renders "in use" (`使用中`, warning background, spinner shown);
an absent reading renders `—` with neutral background and hidden spinner. -/
theorem C3_classification (t v : PyFloat) :
    (PyFloat.lt v t = true →
      setAvailableView t (some v) = ⟨"使用可", "--ok", false⟩) ∧
    (PyFloat.le t v = true →
      setAvailableView t (some v) = ⟨"使用中", "--warn", true⟩) ∧
    setAvailableView t Option.none = ⟨"—", "--base", false⟩ := by
  refine ⟨?_, ?_, rfl⟩
  · intro h
    have h' := PyFloat.lt_imp_not_le t v h
    simp [setAvailableView, h, h']
  · intro h
    have h' := PyFloat.le_imp_not_lt t v h
    simp [setAvailableView, h, h']

/-- Claim C3, witness: a reading below the threshold, and one exactly at
the threshold (the boundary case the spec calls out). -/
theorem C3_classification_witness :
    setAvailableView THRESHOLD (some (PyFloat.finite (mkRat 1 100)))
      = ⟨"使用可", "--ok", false⟩ ∧
    setAvailableView THRESHOLD (some THRESHOLD)
      = ⟨"使用中", "--warn", true⟩ :=
  ⟨(C3_classification THRESHOLD (PyFloat.finite (mkRat 1 100))).1 (by decide),
   (C3_classification THRESHOLD THRESHOLD).2.1 (by decide)⟩

/-- Claim C4: timestamp coercion treats a trailing `Z` as UTC, converts an
explicit offset to UTC, assumes UTC when no timezone is given, and fails on
missing, empty or unparseable input.  The three example strings all coerce
to UTC midnight Jan 1 2025. -/
theorem C4_timestamp_coercion :
    _parse_iso8601 (.str "2025-01-01T00:00:00Z")
      = some ⟨2025, 1, 1, 0, 0, 0, 0, some 0⟩ ∧
    _parse_iso8601 (.str "2025-01-01T09:00:00+09:00")
      = some ⟨2025, 1, 1, 0, 0, 0, 0, some 0⟩ ∧
    _parse_iso8601 (.str "2025-01-01T00:00:00")
      = some ⟨2025, 1, 1, 0, 0, 0, 0, some 0⟩ ∧
    _parse_iso8601 (.str "") = Option.none ∧
    _parse_iso8601 .none = Option.none ∧
    (∀ s, endsWithZ s = false → fromisoformat s = Option.none →
      _parse_iso8601 (.str s) = Option.none) ∧
    (∀ s, endsWithZ s = true → fromisoformat (replaceZ s) = Option.none →
      _parse_iso8601 (.str s) = Option.none) := by
  refine ⟨by decide, by decide, by decide, by decide, rfl, ?_, ?_⟩
  · intro s hz hp
    simp [_parse_iso8601, hz, hp]
  · intro s hz hp
    simp [_parse_iso8601, hz, hp]

/-- Claim C4, witness for the two conditional conjuncts: an unparseable
plain string and an unparseable `Z`-suffixed string both fail. -/
theorem C4_timestamp_coercion_witness :
    _parse_iso8601 (.str "not-a-date") = Option.none ∧
    _parse_iso8601 (.str "99-99Z") = Option.none :=
  ⟨C4_timestamp_coercion.2.2.2.2.2.1 "not-a-date" (by decide) (by decide),
   C4_timestamp_coercion.2.2.2.2.2.2 "99-99Z" (by decide) (by decide)⟩

/-- Claim C5: an upstream success with an empty result list produces HTTP
200 with `created = null` and all four values `null` (plus `server_now`),
not an error. -/
theorem C5_empty_upstream (now : String) :
    api_data (.ok []) now =
      (200, [("created", .atom .null), ("server_now", .atom (.str now)),
        ("values", .obj [("d1", .null), ("d2", .null), ("d3", .null),
          ("d4", .null)])]) := rfl

/-- Claim C5, witness at a concrete clock value. -/
theorem C5_empty_upstream_witness :
    api_data (.ok []) "2025-06-01T12:00:05+00:00" =
      (200, [("created", .atom .null),
        ("server_now", .atom (.str "2025-06-01T12:00:05+00:00")),
        ("values", .obj [("d1", .null), ("d2", .null), ("d3", .null),
          ("d4", .null)])]) :=
  C5_empty_upstream "2025-06-01T12:00:05+00:00"

/-- Claim C6: an upstream failure (network error, timeout or non-2xx, all
surfaced as a `RequestException` with text `e`) produces HTTP 502 with an
`error` field carrying that text, and the payload has no `values` key. -/
theorem C6_upstream_error (e now : String) :
    api_data (.error e) now = (502, [("error", .atom (.str e))]) ∧
    "values" ∉ jsonKeys (api_data (.error e) now).2 := by
  refine ⟨rfl, ?_⟩
  show "values" ∉ ["error"]
  decide

/-- Claim C6, witness at a concrete error text. -/
theorem C6_upstream_error_witness :
    api_data (.error "connection refused") "now"
      = (502, [("error", .atom (.str "connection refused"))]) :=
  (C6_upstream_error "connection refused" "now").1

/-- Claim C7: a record whose `created` field fails timestamp coercion
produces HTTP 502 with the fixed message
`Invalid response from Ambient: Invalid created timestamp`, which carries
the `Invalid response from Ambient:` marker; a network-failure payload
whose raw error text lacks that marker is therefore a different payload. -/
theorem C7_invalid_created (row : Record) (rest : List Record) (now : String)
    (h : _parse_iso8601 row.created = Option.none) :
    api_data (.ok (row :: rest)) now
      = (502, [("error", .atom (.str
          "Invalid response from Ambient: Invalid created timestamp"))]) ∧
    ("Invalid response from Ambient:".data).isPrefixOf
      ("Invalid response from Ambient: Invalid created timestamp").data = true ∧
    (∀ e : String,
      ("Invalid response from Ambient:".data).isPrefixOf e.data = false →
      (api_data (.error e) now).2 ≠ (api_data (.ok (row :: rest)) now).2) := by
  have hbody : api_data (.ok (row :: rest)) now
      = (502, [("error", .atom (.str
          "Invalid response from Ambient: Invalid created timestamp"))]) := by
    rw [api_data_cons, h]
  refine ⟨hbody, by decide, ?_⟩
  intro e he heq
  rw [hbody] at heq
  simp [api_data] at heq
  rw [heq] at he
  exact absurd he (by decide)

/-- Claim C7, witness: a record with an unparseable `created`. -/
theorem C7_invalid_created_witness :
    api_data (.ok [⟨.str "garbage", .none, .none, .none, .none⟩]) "now"
      = (502, [("error", .atom (.str
          "Invalid response from Ambient: Invalid created timestamp"))]) :=
  (C7_invalid_created ⟨.str "garbage", .none, .none, .none, .none⟩ [] "now"
    (by decide)).1

/-- The upstream record of the end-to-end scenario. -/
def demoRecord : Record :=
  ⟨.str "2025-06-01T12:00:00Z", .str "0.10", .none, .str "0.01", .str "abc"⟩

/-- Claim C8: end to end, the record
`{"created":"2025-06-01T12:00:00Z","d1":"0.10","d2":null,"d3":"0.01","d4":"abc"}`
with threshold 0.05 yields the success payload with
`created = "2025-06-01T12:00:00+00:00"` and values d1 = 0.10, d2 = null,
d3 = 0.01, d4 = null; the client then renders d1 as "in use" (`使用中`,
spinner shown), d2 as `—`, d3 as "available" (`使用可`), d4 as `—`. -/
theorem C8_end_to_end (now : String) :
    api_data (.ok [demoRecord]) now =
      (200, [("created", .atom (.str "2025-06-01T12:00:00+00:00")),
        ("server_now", .atom (.str now)),
        ("values", .obj [("d1", .num (.finite (mkRat 1 10))), ("d2", .null),
          ("d3", .num (.finite (mkRat 1 100))), ("d4", .null)])]) ∧
    setAvailableView THRESHOLD (jsCoerce (.num (.finite (mkRat 1 10))))
      = ⟨"使用中", "--warn", true⟩ ∧
    setAvailableView THRESHOLD (jsCoerce .null) = ⟨"—", "--base", false⟩ ∧
    setAvailableView THRESHOLD (jsCoerce (.num (.finite (mkRat 1 100))))
      = ⟨"使用可", "--ok", false⟩ := by
  exact ⟨rfl, by decide, by decide, by decide⟩

/-- Claim C8, witness at a concrete clock value. -/
theorem C8_end_to_end_witness :
    api_data (.ok [demoRecord]) "2025-06-01T12:00:05+00:00" =
      (200, [("created", .atom (.str "2025-06-01T12:00:00+00:00")),
        ("server_now", .atom (.str "2025-06-01T12:00:05+00:00")),
        ("values", .obj [("d1", .num (.finite (mkRat 1 10))), ("d2", .null),
          ("d3", .num (.finite (mkRat 1 100))), ("d4", .null)])]) :=
  (C8_end_to_end "2025-06-01T12:00:05+00:00").1

/-- Claim C9: the timestamp coercion is total — on every input it either
fails (`none`, the model of every caught exception) or returns an aware
datetime whose timezone is exactly UTC (offset zero). -/
theorem C9_parse_total_utc (v : PyVal) (d : PyDateTime)
    (h : _parse_iso8601 v = some d) : d.tz = some 0 := by
  cases v with
  | str s =>
    simp only [_parse_iso8601] at h
    split at h
    · cases h
    · split at h
      · rcases hf : fromisoformat (replaceZ s) with _ | dt <;> rw [hf] at h
        · cases h
        · exact astimezoneUtc_tz _ _ h
      · rcases hf : fromisoformat s with _ | dt <;> rw [hf] at h
        · cases h
        · exact astimezoneUtc_tz _ _ h
  | none => simp [_parse_iso8601] at h
  | num f => simp [_parse_iso8601] at h
  | bool b => simp [_parse_iso8601] at h
  | other => simp [_parse_iso8601] at h

/-- Claim C9, witness. -/
theorem C9_parse_total_utc_witness :
    (⟨2025, 1, 1, 0, 0, 0, 0, some 0⟩ : PyDateTime).tz = some 0 :=
  C9_parse_total_utc (.str "2025-01-01T00:00:00Z")
    ⟨2025, 1, 1, 0, 0, 0, 0, some 0⟩ (by decide)

/-- Claim C10: every 200 response of the endpoint has exactly the
top-level keys `created`, `server_now`, `values` in both success branches,
`server_now` always carries the server clock string, and `values` has
exactly the keys `d1`..`d4`, each `null` or a number. -/
theorem C10_success_shape (fetched : Except String (List Record))
    (now : String) (st : Nat) (b : Body)
    (h : api_data fetched now = (st, b)) (h200 : st = 200) :
    ∃ c v1 v2 v3 v4,
      b = [("created", .atom c), ("server_now", .atom (.str now)),
        ("values", .obj [("d1", v1), ("d2", v2), ("d3", v3), ("d4", v4)])] ∧
      (c = JsonAtom.null ∨ ∃ s, c = JsonAtom.str s) ∧
      (∀ x ∈ [v1, v2, v3, v4],
        x = JsonAtom.null ∨ ∃ f, x = JsonAtom.num f) := by
  subst h200
  cases fetched with
  | error e =>
    unfold api_data at h
    injection h with h1 _
    exact absurd h1 (by decide)
  | ok rows =>
    cases rows with
    | nil =>
      unfold api_data at h
      injection h with _ h2
      refine ⟨.null, .null, .null, .null, .null, h2.symm, Or.inl rfl, ?_⟩
      intro x hx
      simp at hx
      exact Or.inl hx
    | cons row rest =>
      rw [api_data_cons] at h
      rcases hp : _parse_iso8601 row.created with _ | dt <;>
        rw [hp] at h
      · injection h with h1 _
        exact absurd h1 (by decide)
      · injection h with _ h2
        refine ⟨.str (isoformat dt), jsonOfReading (_to_num row.d1),
          jsonOfReading (_to_num row.d2), jsonOfReading (_to_num row.d3),
          jsonOfReading (_to_num row.d4), h2.symm,
          Or.inr ⟨isoformat dt, rfl⟩, ?_⟩
        intro x hx
        simp at hx
        rcases hx with hx | hx | hx | hx <;> exact hx ▸ jsonOfReading_shape _

/-- Claim C10, witness: the theorem applied to the empty-result branch at a
concrete clock value. -/
theorem C10_success_shape_witness :
    ∃ c v1 v2 v3 v4,
      ([("created", .atom .null), ("server_now", .atom (.str "now")),
        ("values", .obj [("d1", JsonAtom.null), ("d2", JsonAtom.null),
          ("d3", JsonAtom.null), ("d4", JsonAtom.null)])] : Body)
        = [("created", .atom c), ("server_now", .atom (.str "now")),
            ("values", .obj [("d1", v1), ("d2", v2), ("d3", v3), ("d4", v4)])] ∧
      (c = JsonAtom.null ∨ ∃ s, c = JsonAtom.str s) ∧
      (∀ x ∈ [v1, v2, v3, v4],
        x = JsonAtom.null ∨ ∃ f, x = JsonAtom.num f) :=
  C10_success_shape (.ok []) "now" 200
    [("created", .atom .null), ("server_now", .atom (.str "now")),
      ("values", .obj [("d1", .null), ("d2", .null), ("d3", .null),
        ("d4", .null)])] rfl rfl
